import Mathlib

/-!
Verification of the network assembly and policy-selection builder of the
noc-deadlock/spin repository (`configs/network/Network.py` and
`src/mem/ruby/network/garnet2.0/GarnetNetwork.py`), as a shallow embedding:
the option record, the variant selector `create_network`, the assembler
`init_network` (with its routing-policy encoder), the Garnet parameter
declarations, and the cross-parameter Validator described by the design
document.
-/

namespace Spin

/-- The flat option record produced by `define_options` (Network.py, lines
35-131): every tunable with the types the parser declares (Python ints are
modelled as `Int`, `store_true` flags as `Bool`, string/choice options as
`String`). -/
structure Options where
  topology : String
  mesh_rows : Int
  network : String
  router_latency : Int
  link_latency : Int
  link_width_bits : Int
  vcs_per_vnet : Int
  buffers_per_ctrl_vc : Int
  buffers_per_data_vc : Int
  routing_algorithm : String
  network_fault_model : Bool
  garnet_deadlock_threshold : Int
  enable_spin_scheme : Int
  dd_thresh : Int
  max_turn_capacity : Int
  enable_sb_placement : Int
  enable_variable_dd : Int
  enable_rotating_priority : Int
  fbfly_rows : Int
  fbfly_cols : Int
  enable_fbfly_vc_partition : Int
  dfly_group_size : Int
  enable_dfly_dlock_avoidance : Int
  staleness_thresh : Int
  enable_escape_vc : Int
deriving DecidableEq

/-- The parser defaults declared by `define_options`. -/
def defaultOptions : Options where
  topology := "Crossbar"
  mesh_rows := 0
  network := "simple"
  router_latency := 1
  link_latency := 1
  link_width_bits := 128
  vcs_per_vnet := 4
  buffers_per_ctrl_vc := 1
  buffers_per_data_vc := 5
  routing_algorithm := "table"
  network_fault_model := false
  garnet_deadlock_threshold := 500000
  enable_spin_scheme := 0
  dd_thresh := 300
  max_turn_capacity := 100
  enable_sb_placement := 0
  enable_variable_dd := 0
  enable_rotating_priority := 0
  fbfly_rows := 0
  fbfly_cols := 0
  enable_fbfly_vc_partition := 0
  dfly_group_size := 0
  enable_dfly_dlock_avoidance := 0
  staleness_thresh := 5
  enable_escape_vc := 0

/-- The Network container class `create_network` selects (`GarnetNetwork` for
the detailed flit-level family, `SimpleNetwork` otherwise). -/
inductive NetworkClassName
  | GarnetNetwork
  | SimpleNetwork
deriving DecidableEq

/-- The internal-link class `create_network` selects. -/
inductive IntLinkClassName
  | GarnetIntLink
  | SimpleIntLink
deriving DecidableEq

/-- The external-link class `create_network` selects. -/
inductive ExtLinkClassName
  | GarnetExtLink
  | SimpleExtLink
deriving DecidableEq

/-- The router class `create_network` selects. -/
inductive RouterClassName
  | GarnetRouter
  | Switch
deriving DecidableEq

/-- The network-interface class `create_network` selects; the simplified
family has none (`InterfaceClass = None`), hence `Option` at the use site. -/
inductive InterfaceClassName
  | GarnetNetworkInterface
deriving DecidableEq

/-- A `GarnetNetworkInterface` object (GarnetNetwork.py, lines 64-75): `id` is
the only explicit constructor argument in `init_network`; `vcs_per_vnet` and
`garnet_deadlock_threshold` are `Parent` proxies, resolved from the owning
Network's values (`virt_nets` resolves against the external `RubyNetwork`
base and is outside this embedding). -/
structure GarnetNetworkInterface where
  id : Nat
  vcs_per_vnet : Int
  garnet_deadlock_threshold : Int
deriving DecidableEq

/-- The Network object assembled by `create_network`/`init_network`: the class
chosen for it, its collections (router, link and interface handles; routers
and links are opaque handles populated by the external topology builder), and
every scalar parameter `init_network` writes.  Scalar defaults are the
`Param` defaults declared in GarnetNetwork.py; `buffers_setup` records that
the external `setup_buffers` step was triggered for the simplified family. -/
structure Network where
  cls : NetworkClassName
  topology : String
  routers : List Nat
  int_links : List Nat
  ext_links : List Nat
  netifs : List GarnetNetworkInterface
  num_rows : Int := 0
  ni_flit_size : Int := 16
  vcs_per_vnet : Int := 4
  buffers_per_data_vc : Int := 5
  buffers_per_ctrl_vc : Int := 1
  routing_algorithm : Int := 0
  enable_fault_model : Bool := false
  fault_model : Option Unit := none
  garnet_deadlock_threshold : Int := 50000
  enable_spin_scheme : Int := 0
  dd_thresh : Int := 300
  max_turn_capacity : Int := 100
  enable_sb_placement : Int := 0
  enable_variable_dd : Int := 0
  staleness_thresh : Int := 5
  enable_dfly_dlock_avoidance : Int := 0
  dfly_group_size : Int := 4
  enable_fbfly_vc_partition : Int := 0
  enable_escape_vc : Int := 0
  enable_rotating_priority : Int := 0
  buffers_setup : Bool := false
deriving DecidableEq

/-- `create_network` (Network.py, lines 133-155): selects the concrete classes
from the `--network` choice and instantiates the Network container with the
topology token and empty router/link/interface collections. -/
def create_network (options : Options) :
    Network × IntLinkClassName × ExtLinkClassName × RouterClassName ×
      Option InterfaceClassName :=
  if options.network = "garnet2.0" then
    ({ cls := .GarnetNetwork, topology := options.topology,
       routers := [], ext_links := [], int_links := [], netifs := [] },
     .GarnetIntLink, .GarnetExtLink, .GarnetRouter,
     some .GarnetNetworkInterface)
  else
    ({ cls := .SimpleNetwork, topology := options.topology,
       routers := [], ext_links := [], int_links := [], netifs := [] },
     .SimpleIntLink, .SimpleExtLink, .Switch, none)

/-- The routing-policy encoder inlined in `init_network` (Network.py, lines
178-189): the if/elif chain over the routing-algorithm name, with the final
`else` branch assigning 0. -/
def routing_algorithm_id (s : String) : Int :=
  if s = "table" then 0
  else if s = "xy" then 1
  else if s = "west_first" then 2
  else if s = "random" then 3
  else if s = "ugal" then 4
  else 0

/-- Modelled from the spec: `SimpleNetwork.setup_buffers` is external to the
repository (the simplified family computes buffer sizing structurally, section
4.3 of the design); here it only records that the buffer-setup step ran,
touching no other field. -/
def setup_buffers (network : Network) : Network :=
  { network with buffers_setup := true }

/-- `init_network` (Network.py, lines 157-202).  For the detailed family it
writes every cross-cutting scalar (note: line 173, `network.topology ==
options.topology`, is an equality comparison whose result is discarded, so
`topology` is never written); then the routing-policy encoder runs; the
simplified family triggers `setup_buffers`; a non-`None` interface class
builds one interface per external link with `id = i` from
`enumerate(network.ext_links)`; finally the fault-model block runs, whose
`assert(options.network == "garnet2.0")` is modelled by returning `none`
(an `AssertionError` aborts the call). -/
def init_network (options : Options) (network : Network)
    (InterfaceClass : Option InterfaceClassName) : Option Network :=
  let n1 :=
    if options.network = "garnet2.0" then
      { network with
        num_rows := options.mesh_rows
        vcs_per_vnet := options.vcs_per_vnet
        buffers_per_ctrl_vc := options.buffers_per_ctrl_vc
        buffers_per_data_vc := options.buffers_per_data_vc
        ni_flit_size := Int.fdiv options.link_width_bits 8
        garnet_deadlock_threshold := options.garnet_deadlock_threshold
        enable_spin_scheme := options.enable_spin_scheme
        dd_thresh := options.dd_thresh
        max_turn_capacity := options.max_turn_capacity
        enable_sb_placement := options.enable_sb_placement
        enable_variable_dd := options.enable_variable_dd
        staleness_thresh := options.staleness_thresh
        enable_dfly_dlock_avoidance := options.enable_dfly_dlock_avoidance
        enable_fbfly_vc_partition := options.enable_fbfly_vc_partition
        enable_escape_vc := options.enable_escape_vc
        enable_rotating_priority := options.enable_rotating_priority }
    else network
  let n2 := { n1 with
    routing_algorithm := routing_algorithm_id options.routing_algorithm }
  let n3 := if options.network = "simple" then setup_buffers n2 else n2
  let n4 :=
    if InterfaceClass.isSome then
      { n3 with netifs := n3.ext_links.enum.map (fun en =>
          { id := en.fst, vcs_per_vnet := n3.vcs_per_vnet,
            garnet_deadlock_threshold := n3.garnet_deadlock_threshold }) }
    else n3
  if options.network_fault_model then
    if options.network = "garnet2.0" then
      some { n4 with enable_fault_model := true, fault_model := some () }
    else
      none
  else
    some n4

/-- The whole assembly pipeline: `create_network`, then the external topology
builder filling the router and link collections, then `init_network` with the
interface class `create_network` selected. -/
def build (options : Options)
    (routers int_links ext_links : List Nat) : Option Network :=
  let r := create_network options
  let net1 := { r.fst with
    routers := routers, int_links := int_links, ext_links := ext_links }
  init_network options net1 r.snd.snd.snd.snd

/-- The numeric parameters the Validator range-checks (each must be ≥ 1,
section 4.4 of the design). -/
inductive RangeParam
  | VcsPerVnet
  | BuffersPerCtrlVc
  | BuffersPerDataVc
  | RouterLatency
  | LinkLatency
deriving DecidableEq

/-- The cross-family feature clashes the Validator reports as
`IncompatibleFeature`. -/
inductive FeatureClash
  | FaultModelRequiresDetailed
  | EscapeVcRequiresMesh
deriving DecidableEq

/-- The dependent parameters the Validator reports as `MissingParameter`
when an enabled feature leaves them at the no-op default. -/
inductive MissingParam
  | DflyGroupSize
deriving DecidableEq

/-- The error kinds of the Validator (section 7 of the design). -/
inductive ConfigError
  | OutOfRange (p : RangeParam)
  | IncompatibleFeature (f : FeatureClash)
  | TopologyMismatch
  | MissingParameter (p : MissingParam)
deriving DecidableEq

/-- Modelled from the spec: the set of topology tokens the Validator treats as
mesh-compatible for the escape-VC feature; the design names `"Mesh"` as
accepted and `"Torus"` as rejected, and the option help text ties escape VCs
to the Mesh topology. -/
def mesh_compatible_topologies : List String := ["Mesh"]

/-- Modelled from the spec: the Validator (section 4.4 of the design) is not
present in the repository's source — `init_network` only carries the
fault-model `assert`.  Each check is independent, runs to completion, and the
violations are aggregated in order: fault model requires the detailed family;
the five ≥ 1 range checks; mesh-rows divisibility of the router count;
escape-VC requires a mesh-compatible topology token; dragonfly deadlock
avoidance requires a positive group size. -/
def validate (options : Options) (numRouters : Nat) : List ConfigError :=
  (if options.network_fault_model ∧ options.network ≠ "garnet2.0" then
    [.IncompatibleFeature .FaultModelRequiresDetailed] else []) ++
  (if options.vcs_per_vnet < 1 then [.OutOfRange .VcsPerVnet] else []) ++
  (if options.buffers_per_ctrl_vc < 1 then
    [.OutOfRange .BuffersPerCtrlVc] else []) ++
  (if options.buffers_per_data_vc < 1 then
    [.OutOfRange .BuffersPerDataVc] else []) ++
  (if options.router_latency < 1 then [.OutOfRange .RouterLatency] else []) ++
  (if options.link_latency < 1 then [.OutOfRange .LinkLatency] else []) ++
  (if 0 < options.mesh_rows ∧ ¬((numRouters : Int) % options.mesh_rows = 0)
    then [.TopologyMismatch] else []) ++
  (if options.enable_escape_vc ≠ 0 ∧
      options.topology ∉ mesh_compatible_topologies then
    [.IncompatibleFeature .EscapeVcRequiresMesh] else []) ++
  (if options.enable_dfly_dlock_avoidance ≠ 0 ∧ ¬0 < options.dfly_group_size
    then [.MissingParameter .DflyGroupSize] else [])

/-- A Network value with empty collections, used as the `Option.getD` default
when naming the result of a concrete assembly run. -/
def emptyNetwork : Network where
  cls := .SimpleNetwork
  topology := ""
  routers := []
  int_links := []
  ext_links := []
  netifs := []

/-- The parser defaults with the detailed family selected. -/
def garnetOptions : Options := { defaultOptions with network := "garnet2.0" }

/-- The Network assembled from `garnetOptions` with two routers, one internal
link and three external links. -/
def exampleGarnetNet : Network :=
  (build garnetOptions [0, 1] [5] [10, 11, 12]).getD emptyNetwork

/-- The Network produced by running `init_network` with `garnetOptions` on an
empty Network with the Garnet interface class. -/
def exampleInitNet : Network :=
  (init_network garnetOptions emptyNetwork
    (some .GarnetNetworkInterface)).getD emptyNetwork

/-- Membership in the single-element list an independent Validator check
contributes. -/
lemma mem_ite_singleton {α : Type} (a b : α) (c : Prop) [Decidable c] :
    (a ∈ if c then [b] else []) ↔ c ∧ a = b := by
  split <;> simp_all

/-- Claim C1: the routing-policy encoder maps `table` to 0, `xy` to 1,
`west_first` to 2, `random` to 3 and `ugal` to 4; every name outside that
encoding table — `turn_model` included — is assigned identifier 0 (the
`table` identifier), and the encoder is total, never raising an error. -/
theorem routing_algorithm_encoding_stable :
    routing_algorithm_id "table" = 0 ∧ routing_algorithm_id "xy" = 1 ∧
    routing_algorithm_id "west_first" = 2 ∧
    routing_algorithm_id "random" = 3 ∧ routing_algorithm_id "ugal" = 4 ∧
    routing_algorithm_id "turn_model" = 0 ∧
    ∀ s : String, s ∉ ["table", "xy", "west_first", "random", "ugal"] →
      routing_algorithm_id s = 0 := by
  refine ⟨rfl, rfl, rfl, rfl, rfl, rfl, ?_⟩
  intro s hs
  simp only [List.mem_cons, List.not_mem_nil, or_false, not_or] at hs
  obtain ⟨h1, h2, h3, h4, h5⟩ := hs
  simp [routing_algorithm_id, h1, h2, h3, h4, h5]

/-- Claim C2: after assembly, the detailed family has exactly one Network
Interface per external link and the interface at position `i` carries
identifier `i`; the simplified family's interface list is empty. -/
theorem netifs_one_per_ext_link (options : Options)
    (routers int_links ext_links : List Nat) (net : Network)
    (h : build options routers int_links ext_links = some net) :
    (options.network = "garnet2.0" →
      net.netifs.length = ext_links.length ∧
      ∀ i, ∀ hi : i < net.netifs.length, (net.netifs[i]).id = i) ∧
    (¬options.network = "garnet2.0" → net.netifs = []) := by
  unfold build init_network create_network at h
  by_cases hg : options.network = "garnet2.0"
  · refine ⟨fun _ => ?_, fun hn => absurd hg hn⟩
    by_cases hf : options.network_fault_model <;>
      simp [hg, hf, setup_buffers] at h <;> subst h <;>
      refine ⟨by simp, ?_⟩ <;> intro i hi <;> simp at hi <;> simp
  · refine ⟨fun hg2 => absurd hg2 hg, fun _ => ?_⟩
    by_cases hf : options.network_fault_model <;>
      simp [hg, hf, setup_buffers] at h
    rw [← h]
    split <;> rfl

/-- Claim C2 witness: assembling the detailed family over three external
links yields three interfaces carrying identifiers 0, 1, 2. -/
theorem netifs_one_per_ext_link_witness :
    exampleGarnetNet.netifs.length = 3 ∧
    ∀ i, ∀ hi : i < exampleGarnetNet.netifs.length,
      (exampleGarnetNet.netifs[i]).id = i :=
  (netifs_one_per_ext_link garnetOptions [0, 1] [5] [10, 11, 12]
    exampleGarnetNet (by rfl)).1 rfl

/-- Claim C3: for the detailed family the assembler sets the
network-interface flit size to the link width in bits divided by 8; 128 bits
give 16, 64 bits give 8, and a positive multiple of 8 always gives a positive
integer flit size. -/
theorem ni_flit_size_from_link_width (options : Options) (network : Network)
    (icls : Option InterfaceClassName) (net : Network)
    (hg : options.network = "garnet2.0")
    (h : init_network options network icls = some net) :
    net.ni_flit_size = Int.fdiv options.link_width_bits 8 ∧
    (options.link_width_bits = 128 → net.ni_flit_size = 16) ∧
    (options.link_width_bits = 64 → net.ni_flit_size = 8) ∧
    ∀ k : Int, 0 < k → options.link_width_bits = 8 * k →
      net.ni_flit_size = k ∧ 0 < net.ni_flit_size := by
  have hflit : net.ni_flit_size = Int.fdiv options.link_width_bits 8 := by
    unfold init_network at h
    by_cases hf : options.network_fault_model <;>
      by_cases hi : icls.isSome <;>
      simp [hg, hf, hi, setup_buffers] at h <;> rw [← h]
  refine ⟨hflit, fun hw => by rw [hflit, hw]; rfl,
    fun hw => by rw [hflit, hw]; rfl, fun k hk hw => ?_⟩
  have hk8 : net.ni_flit_size = k := by
    rw [hflit, hw, Int.mul_fdiv_cancel_left k (by norm_num)]
  exact ⟨hk8, hk8 ▸ hk⟩

/-- Claim C3 witness: the default 128-bit link width yields a flit size of
16 bytes. -/
theorem ni_flit_size_from_link_width_witness : exampleInitNet.ni_flit_size = 16 :=
  (ni_flit_size_from_link_width garnetOptions emptyNetwork
    (some .GarnetNetworkInterface) exampleInitNet rfl (by rfl)).2.1 rfl

/-- Claim C4: the Validator reports the fault-model/simple-family clash as a
recoverable, aggregated `IncompatibleFeature` violation — exactly when the
fault-model toggle is set and the detailed family is not selected — rather
than aborting the process. -/
theorem fault_model_requires_detailed_family (options : Options)
    (numRouters : Nat) :
    ConfigError.IncompatibleFeature .FaultModelRequiresDetailed ∈
        validate options numRouters ↔
      options.network_fault_model ∧ options.network ≠ "garnet2.0" := by
  simp [validate, List.mem_append, mem_ite_singleton]

/-- Claim C5: the Validator runs every range check and collects every
violation: for each of vcs-per-vnet, buffers-per-ctrl-vc,
buffers-per-data-vc, router-latency and link-latency, an `OutOfRange`
violation for that parameter is reported exactly when the parameter is below
1, independently of the other checks. -/
theorem range_violations_all_reported (options : Options) (numRouters : Nat) :
    (ConfigError.OutOfRange .VcsPerVnet ∈ validate options numRouters ↔
      options.vcs_per_vnet < 1) ∧
    (ConfigError.OutOfRange .BuffersPerCtrlVc ∈ validate options numRouters ↔
      options.buffers_per_ctrl_vc < 1) ∧
    (ConfigError.OutOfRange .BuffersPerDataVc ∈ validate options numRouters ↔
      options.buffers_per_data_vc < 1) ∧
    (ConfigError.OutOfRange .RouterLatency ∈ validate options numRouters ↔
      options.router_latency < 1) ∧
    (ConfigError.OutOfRange .LinkLatency ∈ validate options numRouters ↔
      options.link_latency < 1) := by
  refine ⟨?_, ?_, ?_, ?_, ?_⟩ <;>
    simp [validate, List.mem_append, mem_ite_singleton]

/-- Claim C6: with mesh rows positive, the Validator reports
`TopologyMismatch` exactly when the router count is not evenly divisible by
the row count; 3 rows with 10 routers is rejected while 2 rows with 10
routers passes with no violation at all. -/
theorem mesh_rows_divisibility (options : Options) (numRouters : Nat) :
    (ConfigError.TopologyMismatch ∈ validate options numRouters ↔
      0 < options.mesh_rows ∧
        ¬((numRouters : Int) % options.mesh_rows = 0)) ∧
    ConfigError.TopologyMismatch ∈
      validate { defaultOptions with mesh_rows := 3 } 10 ∧
    validate { defaultOptions with mesh_rows := 2 } 10 = [] := by
  refine ⟨?_, by decide, by decide⟩
  simp [validate, List.mem_append, mem_ite_singleton]

/-- Claim C7: with the escape-VC toggle active, the Validator reports
`IncompatibleFeature` exactly when the declared topology token is outside the
known mesh-compatible set; `"Torus"` with escape VCs is rejected while
`"Mesh"` with escape VCs passes with no violation at all. -/
theorem escape_vc_requires_mesh_topology (options : Options)
    (numRouters : Nat) :
    (ConfigError.IncompatibleFeature .EscapeVcRequiresMesh ∈
        validate options numRouters ↔
      options.enable_escape_vc ≠ 0 ∧
        options.topology ∉ mesh_compatible_topologies) ∧
    ConfigError.IncompatibleFeature .EscapeVcRequiresMesh ∈
      validate { defaultOptions with
        enable_escape_vc := 1, topology := "Torus" } 16 ∧
    validate { defaultOptions with
      enable_escape_vc := 1, topology := "Mesh" } 16 = [] := by
  refine ⟨?_, by decide, by decide⟩
  simp [validate, List.mem_append, mem_ite_singleton]

/-- Claim C8: the variant selector is a pure total function of the
network-family choice: the detailed family yields the Garnet network,
internal-link, external-link, router and interface classes, every other
choice yields the Simple network, link and router classes with the interface
class absent, and the instantiated Network container starts with empty
router, internal-link, external-link and interface collections. -/
theorem create_network_variant_selection (options : Options) :
    (options.network = "garnet2.0" →
      (create_network options).fst.cls = .GarnetNetwork ∧
      (create_network options).snd.fst = .GarnetIntLink ∧
      (create_network options).snd.snd.fst = .GarnetExtLink ∧
      (create_network options).snd.snd.snd.fst = .GarnetRouter ∧
      (create_network options).snd.snd.snd.snd =
        some .GarnetNetworkInterface) ∧
    (¬options.network = "garnet2.0" →
      (create_network options).fst.cls = .SimpleNetwork ∧
      (create_network options).snd.fst = .SimpleIntLink ∧
      (create_network options).snd.snd.fst = .SimpleExtLink ∧
      (create_network options).snd.snd.snd.fst = .Switch ∧
      (create_network options).snd.snd.snd.snd = none) ∧
    (create_network options).fst.topology = options.topology ∧
    (create_network options).fst.routers = [] ∧
    (create_network options).fst.int_links = [] ∧
    (create_network options).fst.ext_links = [] ∧
    (create_network options).fst.netifs = [] := by
  by_cases hg : options.network = "garnet2.0" <;> simp [create_network, hg]

/-- Claim C9: in an assembled detailed-family Network, every interface's
vcs-per-vnet and deadlock-threshold values equal the Network's own resolved
values, so any two interfaces agree on them. -/
theorem netif_params_single_source (options : Options)
    (routers int_links ext_links : List Nat) (net : Network)
    (hg : options.network = "garnet2.0")
    (h : build options routers int_links ext_links = some net) :
    (∀ ni ∈ net.netifs, ni.vcs_per_vnet = net.vcs_per_vnet ∧
      ni.garnet_deadlock_threshold = net.garnet_deadlock_threshold) ∧
    ∀ ni ∈ net.netifs, ∀ nj ∈ net.netifs,
      ni.vcs_per_vnet = nj.vcs_per_vnet ∧
      ni.garnet_deadlock_threshold = nj.garnet_deadlock_threshold := by
  have base : ∀ ni ∈ net.netifs, ni.vcs_per_vnet = net.vcs_per_vnet ∧
      ni.garnet_deadlock_threshold = net.garnet_deadlock_threshold := by
    unfold build init_network create_network at h
    by_cases hf : options.network_fault_model <;>
      simp [hg, hf, setup_buffers] at h <;> subst h <;>
      intro ni hni <;> simp at hni <;>
      obtain ⟨a, ha, rfl⟩ := hni <;> exact ⟨rfl, rfl⟩
  refine ⟨base, fun ni hni nj hnj => ?_⟩
  exact ⟨(base ni hni).1.trans (base nj hnj).1.symm,
    (base ni hni).2.trans (base nj hnj).2.symm⟩

/-- Claim C9 witness: the first interface of a concrete assembled
detailed-family Network carries the Network's own vcs-per-vnet and
deadlock-threshold values. -/
theorem netif_params_single_source_witness :
    (exampleGarnetNet.netifs.getD 0
      { id := 0, vcs_per_vnet := 0,
        garnet_deadlock_threshold := 0 }).vcs_per_vnet =
      exampleGarnetNet.vcs_per_vnet ∧
    (exampleGarnetNet.netifs.getD 0
      { id := 0, vcs_per_vnet := 0,
        garnet_deadlock_threshold := 0 }).garnet_deadlock_threshold =
      exampleGarnetNet.garnet_deadlock_threshold :=
  (netif_params_single_source garnetOptions [0, 1] [5] [10, 11, 12]
    exampleGarnetNet rfl (by rfl)).1 _ (by decide)

/-- Claim C10: `init_network` never writes the Network's topology field (line
173 of Network.py is an equality comparison, not an assignment): whenever it
returns, the topology equals the value it had before the call, and
`create_network` bound that field to the options' topology value. -/
theorem init_network_preserves_topology (options : Options)
    (network : Network) (icls : Option InterfaceClassName) (net : Network)
    (h : init_network options network icls = some net) :
    net.topology = network.topology ∧
    (create_network options).fst.topology = options.topology := by
  constructor
  · unfold init_network at h
    by_cases hg : options.network = "garnet2.0" <;>
      by_cases hs : options.network = "simple" <;>
      by_cases hf : options.network_fault_model <;>
      by_cases hi : icls.isSome <;>
      simp [hg, hs, hf, hi, setup_buffers] at h <;> rw [← h]
  · by_cases hg : options.network = "garnet2.0" <;>
      simp [create_network, hg]

/-- Claim C10 witness: a concrete `init_network` run leaves the topology
field exactly as the incoming Network had it. -/
theorem init_network_preserves_topology_witness :
    exampleInitNet.topology = emptyNetwork.topology ∧
    (create_network garnetOptions).fst.topology = garnetOptions.topology :=
  init_network_preserves_topology garnetOptions emptyNetwork
    (some .GarnetNetworkInterface) exampleInitNet (by rfl)

end Spin
